import Mathlib

/-!
Verification of the Spotify serverless ETL pipeline (extractor and transformer)
against its natural-language specification.  The Python sources are shallowly
embedded: pure row-shaping functions become Lean functions on an explicit data
model, storage becomes an association list of blob paths, and each fallible
step returns an `Option` or is driven by an explicit failure-injection
parameter mirroring the exception paths of the code.
-/

set_option maxHeartbeats 1000000

/-! ## Generic helpers: monadic map over `Option` and first-seen deduplication -/

/-- Monadic map over `Option`, mirroring a Python loop that appends one derived
row per element and raises (aborts the whole pass) at the first failure. -/
def optionMapM {α β : Type} (f : α → Option β) : List α → Option (List β)
  | [] => some []
  | x :: xs =>
    match f x with
    | none => none
    | some y => (optionMapM f xs).map fun ys => y :: ys

theorem optionMapM_some_spec {α β : Type} {f : α → Option β} :
    ∀ {l : List α} {r : List β}, optionMapM f l = some r →
      r.length = l.length ∧
        ∀ i (h1 : i < l.length) (h2 : i < r.length),
          f (l.get ⟨i, h1⟩) = some (r.get ⟨i, h2⟩) := by
  intro l
  induction l with
  | nil =>
    intro r h
    simp only [optionMapM] at h
    cases h
    refine ⟨rfl, ?_⟩
    intro i h1 _
    exact absurd h1 (Nat.not_lt_zero i)
  | cons x xs ih =>
    intro r h
    simp only [optionMapM] at h
    cases hfx : f x with
    | none => rw [hfx] at h; exact absurd h (by simp)
    | some y =>
      rw [hfx] at h
      rcases Option.map_eq_some'.mp h with ⟨ys, hys, rfl⟩
      rcases ih hys with ⟨hlen, hget⟩
      refine ⟨by simp [hlen], ?_⟩
      intro i h1 h2
      cases i with
      | zero => simpa using hfx
      | succ j =>
        have h1' : j < xs.length := by simpa using h1
        have h2' : j < ys.length := by simpa using h2
        simpa using hget j h1' h2'

theorem optionMapM_isSome {α β : Type} {f : α → Option β} :
    ∀ {l : List α}, (∀ x ∈ l, (f x).isSome = true) →
      ∃ r, optionMapM f l = some r := by
  intro l
  induction l with
  | nil => intro _; exact ⟨[], rfl⟩
  | cons x xs ih =>
    intro h
    have hx := h x (List.mem_cons_self x xs)
    rcases Option.isSome_iff_exists.mp hx with ⟨y, hy⟩
    rcases ih (fun z hz => h z (List.mem_cons_of_mem x hz)) with ⟨ys, hys⟩
    exact ⟨y :: ys, by simp [optionMapM, hy, hys]⟩

theorem optionMapM_mem_rev {α β : Type} {f : α → Option β} :
    ∀ {l : List α} {r : List β}, optionMapM f l = some r →
      ∀ y ∈ r, ∃ x ∈ l, f x = some y := by
  intro l
  induction l with
  | nil =>
    intro r h y hy
    simp only [optionMapM] at h
    cases h
    simp at hy
  | cons x xs ih =>
    intro r h y hy
    simp only [optionMapM] at h
    cases hfx : f x with
    | none => rw [hfx] at h; exact absurd h (by simp)
    | some z =>
      rw [hfx] at h
      rcases Option.map_eq_some'.mp h with ⟨ys, hys, rfl⟩
      rcases List.mem_cons.mp hy with hy0 | hytail
      · exact ⟨x, List.mem_cons_self x xs, hy0 ▸ hfx⟩
      · rcases ih hys y hytail with ⟨x', hx', hfx'⟩
        exact ⟨x', List.mem_cons_of_mem x hx', hfx'⟩

theorem optionMapM_mem_fwd {α β : Type} {f : α → Option β} :
    ∀ {l : List α} {r : List β}, optionMapM f l = some r →
      ∀ x ∈ l, ∃ y ∈ r, f x = some y := by
  intro l
  induction l with
  | nil => intro r _ x hx; simp at hx
  | cons a xs ih =>
    intro r h x hx
    simp only [optionMapM] at h
    cases hfa : f a with
    | none => rw [hfa] at h; exact absurd h (by simp)
    | some z =>
      rw [hfa] at h
      rcases Option.map_eq_some'.mp h with ⟨ys, hys, rfl⟩
      rcases List.mem_cons.mp hx with rfl | hxtail
      · exact ⟨z, List.mem_cons_self z ys, hfa⟩
      · rcases ih hys x hxtail with ⟨y, hy, hfy⟩
        exact ⟨y, List.mem_cons_of_mem z hy, hfy⟩

theorem optionMapM_eq_none {α β : Type} {f : α → Option β} :
    ∀ {l : List α} {x : α}, x ∈ l → f x = none → optionMapM f l = none := by
  intro l
  induction l with
  | nil => intro x hx _; simp at hx
  | cons a xs ih =>
    intro x hx hfx
    rcases List.mem_cons.mp hx with rfl | hxtail
    · simp [optionMapM, hfx]
    · cases hfa : f a with
      | none => simp [optionMapM, hfa]
      | some z => simp [optionMapM, hfa, ih hxtail hfx]

/-- First-seen deduplication over a key function, generalised over an
accumulator of already-seen keys.  This models
`DataFrame.drop_duplicates(subset=key, keep="first", ignore_index=True)`. -/
def dedupFrom {α κ : Type} [DecidableEq κ] (key : α → κ) (seen : List κ) :
    List α → List α
  | [] => []
  | x :: xs =>
    if key x ∈ seen then dedupFrom key seen xs
    else x :: dedupFrom key (key x :: seen) xs

/-- First-seen deduplication by a key, keeping the first row for each key. -/
def dedupBy {α κ : Type} [DecidableEq κ] (key : α → κ) (l : List α) : List α :=
  dedupFrom key [] l

theorem dedupFrom_spec {α κ : Type} [DecidableEq κ] (key : α → κ) :
    ∀ (seen : List κ) (l : List α), ∀ a ∈ dedupFrom key seen l,
      key a ∉ seen ∧ l.find? (fun x => decide (key x = key a)) = some a := by
  intro seen l
  induction l generalizing seen with
  | nil => intro a ha; simp [dedupFrom] at ha
  | cons x xs ih =>
    intro a ha
    by_cases hx : key x ∈ seen
    · simp only [dedupFrom, if_pos hx] at ha
      rcases ih seen a ha with ⟨hnot, hfind⟩
      have hne : ¬ key x = key a := fun he => hnot (he ▸ hx)
      refine ⟨hnot, ?_⟩
      rw [List.find?_cons_of_neg _ (by simpa using hne)]
      exact hfind
    · simp only [dedupFrom, if_neg hx] at ha
      rcases List.mem_cons.mp ha with rfl | hatail
      · exact ⟨hx, by rw [List.find?_cons_of_pos _ (by simp)]⟩
      · rcases ih (key x :: seen) a hatail with ⟨hnot, hfind⟩
        have hne : ¬ key x = key a := fun he => hnot (by simp [he])
        refine ⟨fun hmem => hnot (List.mem_cons_of_mem _ hmem), ?_⟩
        rw [List.find?_cons_of_neg _ (by simpa using hne)]
        exact hfind

theorem dedupFrom_pairwise {α κ : Type} [DecidableEq κ] (key : α → κ) :
    ∀ (seen : List κ) (l : List α),
      (dedupFrom key seen l).Pairwise (fun a b => key a ≠ key b) := by
  intro seen l
  induction l generalizing seen with
  | nil => simp [dedupFrom]
  | cons x xs ih =>
    by_cases hx : key x ∈ seen
    · simpa only [dedupFrom, if_pos hx] using ih seen
    · simp only [dedupFrom, if_neg hx]
      refine List.Pairwise.cons ?_ (ih (key x :: seen))
      intro b hb
      rcases dedupFrom_spec key (key x :: seen) xs b hb with ⟨hnot, _⟩
      exact fun he => hnot (by simp [he])

theorem dedupFrom_exists_key {α κ : Type} [DecidableEq κ] (key : α → κ) :
    ∀ (seen : List κ) (l : List α) (x : α), x ∈ l → key x ∉ seen →
      ∃ a ∈ dedupFrom key seen l, key a = key x := by
  intro seen l
  induction l generalizing seen with
  | nil => intro x hx _; simp at hx
  | cons a xs ih =>
    intro x hx hnot
    by_cases hka : key a ∈ seen
    · simp only [dedupFrom, if_pos hka]
      rcases List.mem_cons.mp hx with rfl | hxtail
      · exact absurd hka hnot
      · exact ih seen x hxtail hnot
    · simp only [dedupFrom, if_neg hka]
      by_cases hkey : key x = key a
      · exact ⟨a, List.mem_cons_self a _, hkey.symm⟩
      · rcases List.mem_cons.mp hx with rfl | hxtail
        · exact absurd rfl hkey
        · rcases ih (key a :: seen) x hxtail
            (by simp [hnot, fun h => hkey h]) with ⟨b, hb, hbk⟩
          exact ⟨b, List.mem_cons_of_mem a hb, hbk⟩

theorem dedupFrom_sublist {α κ : Type} [DecidableEq κ] (key : α → κ) :
    ∀ (seen : List κ) (l : List α), (dedupFrom key seen l).Sublist l := by
  intro seen l
  induction l generalizing seen with
  | nil => simp [dedupFrom]
  | cons x xs ih =>
    by_cases hx : key x ∈ seen
    · simpa only [dedupFrom, if_pos hx] using (ih seen).cons x
    · simpa only [dedupFrom, if_neg hx] using (ih (key x :: seen)).cons₂ x

/-! ## Data model of a raw playlist snapshot -/

/-- The nested `track.album` object of one item of the Spotify API response.
`none` fields model keys absent from the JSON (access raises `KeyError`). -/
structure RawAlbum where
  id : Option String
  name : Option String
  release_date : Option String
  total_tracks : Option Int
  external_url : Option String
  deriving DecidableEq

/-- One entry of the `track.artists` array of an item. -/
structure RawArtist where
  id : Option String
  name : Option String
  external_url : Option String
  deriving DecidableEq

/-- The nested `track` object of one item. -/
structure RawTrack where
  id : Option String
  name : Option String
  duration_ms : Option Int
  external_url : Option String
  popularity : Option Int
  album : Option RawAlbum
  artists : List RawArtist
  deriving DecidableEq

/-- One entry of the snapshot's `items` list. -/
structure RawItem where
  track : Option RawTrack
  added_at : Option String
  deriving DecidableEq

/-- A parsed raw playlist snapshot (the JSON document the transformer reads). -/
structure RawData where
  items : List RawItem
  deriving DecidableEq

/-! ## Row types and projection functions (`make_album`, `make_artist`, `make_song`) -/

/-- A song row as appended by `make_song`, before date parsing:
`[song_id, name, duration_ms, url, popularity, added_at, album_id, artist_id]`. -/
structure SongRowRaw where
  song_id : String
  name : String
  duration_ms : Int
  url : String
  popularity : Int
  added_at : String
  album_id : String
  artist_id : String
  deriving DecidableEq

/-- An artist row as appended by `make_artist`: `[artist_id, name, url]`. -/
structure ArtistRow where
  artist_id : String
  name : String
  url : String
  deriving DecidableEq

/-- An album row as appended by `make_album`, before date parsing:
`[album_id, name, release_date, total_tracks, url]`. -/
structure AlbumRowRaw where
  album_id : String
  name : String
  release_date : String
  total_tracks : Int
  url : String
  deriving DecidableEq

/-- The per-item body of the `make_album` loop: nested field accesses, each of
which raises `KeyError` (= `none`) when the field is absent. -/
def albumProj (it : RawItem) : Option AlbumRowRaw :=
  it.track.bind fun t =>
  t.album.bind fun al =>
  al.id.bind fun aid =>
  al.name.bind fun anm =>
  al.release_date.bind fun ard =>
  al.total_tracks.bind fun att =>
  al.external_url.map fun aurl =>
  ⟨aid, anm, ard, att, aurl⟩

/-- The per-item body of the `make_artist` loop; only `track.artists[0]`, the
first listed artist, is read. -/
def artistProj (it : RawItem) : Option ArtistRow :=
  it.track.bind fun t =>
  t.artists.head?.bind fun ar =>
  ar.id.bind fun aid =>
  ar.name.bind fun anm =>
  ar.external_url.map fun aurl =>
  ⟨aid, anm, aurl⟩

/-- The per-item body of the `make_song` loop. -/
def songProj (it : RawItem) : Option SongRowRaw :=
  it.track.bind fun t =>
  t.id.bind fun sid =>
  t.name.bind fun snm =>
  t.duration_ms.bind fun dur =>
  t.external_url.bind fun surl =>
  t.popularity.bind fun pop =>
  it.added_at.bind fun added =>
  t.album.bind fun al =>
  al.id.bind fun alid =>
  t.artists.head?.bind fun ar =>
  ar.id.map fun arid =>
  ⟨sid, snm, dur, surl, pop, added, alid, arid⟩

/-- `make_album`: one album row per item, in item order; any missing field
aborts the whole loop (a raised `KeyError`). -/
def make_album (data : RawData) : Option (List AlbumRowRaw) :=
  optionMapM albumProj data.items

/-- `make_artist`: one artist row per item, from the first listed artist. -/
def make_artist (data : RawData) : Option (List ArtistRow) :=
  optionMapM artistProj data.items

/-- `make_song`: one song row per item, in item order. -/
def make_song (data : RawData) : Option (List SongRowRaw) :=
  optionMapM songProj data.items

/-- An item is well formed when every field the three projection loops read is
present: the track object with its scalar fields, the add timestamp, the album
object with its fields, and a nonempty artist list whose first entry has its
fields. -/
def wellFormedItem (it : RawItem) : Bool :=
  match it.track with
  | none => false
  | some t =>
    t.id.isSome && t.name.isSome && t.duration_ms.isSome &&
    t.external_url.isSome && t.popularity.isSome && it.added_at.isSome &&
    (match t.album with
     | none => false
     | some al =>
       al.id.isSome && al.name.isSome && al.release_date.isSome &&
       al.total_tracks.isSome && al.external_url.isSome) &&
    (match t.artists.head? with
     | none => false
     | some ar => ar.id.isSome && ar.name.isSome && ar.external_url.isSome)

/-! ## Date parsing (model of `pd.to_datetime` on the column values) -/

/-- A canonical calendar timestamp. -/
structure Date where
  year : Nat
  month : Nat
  day : Nat
  deriving DecidableEq

/-- Numeric key giving the comparable (chronological) order of dates. -/
def Date.key (d : Date) : Nat := d.year * 10000 + d.month * 100 + d.day

/-- Digits of a numeral, most significant first, to a number; `none` when the
list is empty or holds a non-digit. -/
def digitsToNat (acc : Nat) : List Char → Option Nat
  | [] => some acc
  | c :: cs => if c.isDigit then digitsToNat (acc * 10 + (c.toNat - 48)) cs else none

/-- Parse a numeric field of a date string. -/
def parseNumField (cs : List Char) : Option Nat :=
  match cs with
  | [] => none
  | _ => digitsToNat 0 cs

/-- Split a character list on the dash separator. -/
def splitDash : List Char → List (List Char)
  | [] => [[]]
  | c :: cs =>
    let rest := splitDash cs
    if c = '-' then [] :: rest
    else
      match rest with
      | [] => [[c]]
      | seg :: segs => (c :: seg) :: segs

/-- Modelled behaviour of `pandas.to_datetime` on one value, for the two input
precisions the specification describes: a full calendar date `YYYY-MM-DD`
(year-only is promoted to January 1).  Anything else fails, and in the code a
failing value makes `pd.to_datetime` raise for the whole column. -/
def parseDate (s : String) : Option Date :=
  match splitDash s.data with
  | [y] =>
    if y.length = 4 then (parseNumField y).map fun yn => ⟨yn, 1, 1⟩ else none
  | [y, m, d] =>
    if y.length = 4 then
      (parseNumField y).bind fun yn =>
      (parseNumField m).bind fun mn =>
      (parseNumField d).bind fun dn =>
      if 1 ≤ mn ∧ mn ≤ 12 ∧ 1 ≤ dn ∧ dn ≤ 31 then some ⟨yn, mn, dn⟩ else none
    else none
  | _ => none

/-- A song row after `pd.to_datetime` on the `added_date` column. -/
structure SongRow where
  song_id : String
  name : String
  duration_ms : Int
  url : String
  popularity : Int
  added_date : Date
  album_id : String
  artist_id : String
  deriving DecidableEq

/-- An album row after `pd.to_datetime` on the `release_date` column. -/
structure AlbumRow where
  album_id : String
  name : String
  release_date : Date
  total_tracks : Int
  url : String
  deriving DecidableEq

/-- Parse the `added_date` cell of one song row. -/
def parseSongRow (r : SongRowRaw) : Option SongRow :=
  (parseDate r.added_at).map fun d =>
    ⟨r.song_id, r.name, r.duration_ms, r.url, r.popularity, d,
     r.album_id, r.artist_id⟩

/-- Parse the `release_date` cell of one album row. -/
def parseAlbumRow (r : AlbumRowRaw) : Option AlbumRow :=
  (parseDate r.release_date).map fun d =>
    ⟨r.album_id, r.name, d, r.total_tracks, r.url⟩

/-- The song dataframe: `make_song` rows with the `added_date` column parsed
(`pd.to_datetime` raises on any unparseable value). -/
def songDf (data : RawData) : Option (List SongRow) :=
  (make_song data).bind (optionMapM parseSongRow)

/-- The artist dataframe: `make_artist` rows deduplicated on `artist_id`,
keeping the first occurrence (`drop_duplicates(keep="first")`). -/
def artistDf (data : RawData) : Option (List ArtistRow) :=
  (make_artist data).map (dedupBy fun r => r.artist_id)

/-- The album dataframe: `make_album` rows deduplicated on `album_id`, then
the `release_date` column parsed (dedup happens before the parse in the code). -/
def albumDf (data : RawData) : Option (List AlbumRow) :=
  (make_album data).bind fun rows =>
    optionMapM parseAlbumRow (dedupBy (fun r => r.album_id) rows)

/-! ## Projection lemmas -/

theorem isSome_of_bind {α β : Type} {o : Option α} {f : α → Option β}
    (h : (o.bind f).isSome = true) : ∃ v, o = some v ∧ (f v).isSome = true := by
  cases o with
  | none => simp at h
  | some v => exact ⟨v, rfl, h⟩

theorem isSome_of_map {α β : Type} {o : Option α} {f : α → β}
    (h : (o.map f).isSome = true) : ∃ v, o = some v := by
  cases o with
  | none => simp at h
  | some v => exact ⟨v, rfl⟩

/-- A well-formed item admits all three projections, with the song row's
foreign keys agreeing with the album and artist rows of the same item and the
song row's date string being the item's add timestamp. -/
theorem wellFormed_projs (it : RawItem) (h : wellFormedItem it = true) :
    ∃ s a r, songProj it = some s ∧ albumProj it = some a ∧
      artistProj it = some r ∧ a.album_id = s.album_id ∧
      r.artist_id = s.artist_id ∧ it.added_at = some s.added_at := by
  rcases it with ⟨track, added⟩
  cases track with
  | none => simp [wellFormedItem] at h
  | some t =>
    rcases t with ⟨tid, tnm, tdur, turl, tpop, talb, tartists⟩
    cases talb with
    | none => simp [wellFormedItem] at h
    | some al =>
      cases tartists with
      | nil => simp [wellFormedItem] at h
      | cons ar rest =>
        rcases al with ⟨alid, alnm, alrd, altt, alurl⟩
        rcases ar with ⟨arid, arnm, arurl⟩
        simp only [wellFormedItem, List.head?_cons, Bool.and_eq_true] at h
        obtain ⟨⟨⟨⟨⟨⟨⟨htid, htnm⟩, htdur⟩, hturl⟩, htpop⟩, hadded⟩,
          ⟨⟨⟨⟨halid, halnm⟩, halrd⟩, haltt⟩, halurl⟩⟩,
          ⟨harid, harnm⟩, harurl⟩ := h
        rcases Option.isSome_iff_exists.mp htid with ⟨vtid, rfl⟩
        rcases Option.isSome_iff_exists.mp htnm with ⟨vtnm, rfl⟩
        rcases Option.isSome_iff_exists.mp htdur with ⟨vtdur, rfl⟩
        rcases Option.isSome_iff_exists.mp hturl with ⟨vturl, rfl⟩
        rcases Option.isSome_iff_exists.mp htpop with ⟨vtpop, rfl⟩
        rcases Option.isSome_iff_exists.mp hadded with ⟨vadded, rfl⟩
        rcases Option.isSome_iff_exists.mp halid with ⟨valid, rfl⟩
        rcases Option.isSome_iff_exists.mp halnm with ⟨valnm, rfl⟩
        rcases Option.isSome_iff_exists.mp halrd with ⟨valrd, rfl⟩
        rcases Option.isSome_iff_exists.mp haltt with ⟨valtt, rfl⟩
        rcases Option.isSome_iff_exists.mp halurl with ⟨valurl, rfl⟩
        rcases Option.isSome_iff_exists.mp harid with ⟨varid, rfl⟩
        rcases Option.isSome_iff_exists.mp harnm with ⟨varnm, rfl⟩
        rcases Option.isSome_iff_exists.mp harurl with ⟨varurl, rfl⟩
        exact ⟨⟨vtid, vtnm, vtdur, vturl, vtpop, vadded, valid, varid⟩,
          ⟨valid, valnm, valrd, valtt, valurl⟩,
          ⟨varid, varnm, varurl⟩,
          by simp [songProj], by simp [albumProj], by simp [artistProj],
          rfl, rfl, rfl⟩

/-- Conversely, when all three projections succeed the item is well formed. -/
theorem projs_wellFormed (it : RawItem)
    (ha : (albumProj it).isSome = true) (hr : (artistProj it).isSome = true)
    (hs : (songProj it).isSome = true) : wellFormedItem it = true := by
  simp only [songProj] at hs
  obtain ⟨t, ht, hs⟩ := isSome_of_bind hs
  obtain ⟨sid, hsid, hs⟩ := isSome_of_bind hs
  obtain ⟨snm, hsnm, hs⟩ := isSome_of_bind hs
  obtain ⟨dur, hdur, hs⟩ := isSome_of_bind hs
  obtain ⟨surl, hsurl, hs⟩ := isSome_of_bind hs
  obtain ⟨pop, hpop, hs⟩ := isSome_of_bind hs
  obtain ⟨added, hadded, hs⟩ := isSome_of_bind hs
  obtain ⟨al, halb, hs⟩ := isSome_of_bind hs
  obtain ⟨alid, halid, hs⟩ := isSome_of_bind hs
  obtain ⟨ar, hhead, hs⟩ := isSome_of_bind hs
  obtain ⟨arid, harid⟩ := isSome_of_map hs
  simp only [albumProj, ht, Option.some_bind, halb] at ha
  obtain ⟨alid2, halid2, ha⟩ := isSome_of_bind ha
  obtain ⟨alnm, halnm, ha⟩ := isSome_of_bind ha
  obtain ⟨alrd, halrd, ha⟩ := isSome_of_bind ha
  obtain ⟨altt, haltt, ha⟩ := isSome_of_bind ha
  obtain ⟨alurl, halurl⟩ := isSome_of_map ha
  simp only [artistProj, ht, Option.some_bind, hhead] at hr
  obtain ⟨arid2, harid2, hr⟩ := isSome_of_bind hr
  obtain ⟨arnm, harnm, hr⟩ := isSome_of_bind hr
  obtain ⟨arurl, harurl⟩ := isSome_of_map hr
  simp [wellFormedItem, ht, halb, hhead, hsid, hsnm, hdur, hsurl, hpop,
    hadded, halid2, halnm, halrd, haltt, halurl, harid2, harnm, harurl]

theorem parseSongRow_ids {r : SongRowRaw} {s : SongRow}
    (h : parseSongRow r = some s) :
    s.album_id = r.album_id ∧ s.artist_id = r.artist_id ∧
      parseDate r.added_at = some s.added_date := by
  rcases Option.map_eq_some'.mp h with ⟨d, hd, rfl⟩
  exact ⟨rfl, rfl, hd⟩

theorem parseAlbumRow_id {r : AlbumRowRaw} {a : AlbumRow}
    (h : parseAlbumRow r = some a) : a.album_id = r.album_id := by
  rcases Option.map_eq_some'.mp h with ⟨d, _, rfl⟩
  rfl

/-! ## CSV serialization and parsing (model of `df.to_csv(index=False)`) -/

/-- A character forcing a CSV cell to be quoted (minimal quoting). -/
def isCsvSpecial (c : Char) : Bool := c == ',' || c == '"' || c == '\n' || c == '\r'

/-- Double every quote character of a cell placed inside a quoted field. -/
def escChars : List Char → List Char
  | [] => []
  | c :: cs => if c = '"' then '"' :: '"' :: escChars cs else c :: escChars cs

/-- Render one cell: quote it exactly when it holds a special character. -/
def renderCellChars (cs : List Char) : List Char :=
  if cs.any isCsvSpecial then '"' :: (escChars cs ++ ['"']) else cs

/-- Render one record: cells joined by commas. -/
def renderRecordChars : List (List Char) → List Char
  | [] => []
  | [c] => renderCellChars c
  | c :: c2 :: cs => renderCellChars c ++ ',' :: renderRecordChars (c2 :: cs)

/-- Render the rows: each record terminated with a newline. -/
def serializeRowsChars : List (List (List Char)) → List Char
  | [] => []
  | r :: rs => renderRecordChars r ++ '\n' :: serializeRowsChars rs

/-- State of the CSV reading automaton: outside quotes, inside quotes, or just
after a quote character inside quotes (which may be the first of a doubled
pair or the closing quote). -/
inductive CsvMode
  | plain
  | quoted
  | quoteSeen
  deriving DecidableEq

/-- The CSV reading automaton over the characters of the text. -/
def parseGo (mode : CsvMode) (field : List Char) (record : List String)
    (acc : List (List String)) : List Char → List (List String)
  | [] =>
    if field.isEmpty && record.isEmpty then acc
    else acc ++ [record ++ [String.mk field]]
  | c :: cs =>
    match mode with
    | .plain =>
      if c = ',' then parseGo .plain [] (record ++ [String.mk field]) acc cs
      else if c = '\n' then
        parseGo .plain [] [] (acc ++ [record ++ [String.mk field]]) cs
      else if c = '"' then parseGo .quoted field record acc cs
      else parseGo .plain (field ++ [c]) record acc cs
    | .quoted =>
      if c = '"' then parseGo .quoteSeen field record acc cs
      else parseGo .quoted (field ++ [c]) record acc cs
    | .quoteSeen =>
      if c = '"' then parseGo .quoted (field ++ ['"']) record acc cs
      else if c = ',' then parseGo .plain [] (record ++ [String.mk field]) acc cs
      else if c = '\n' then
        parseGo .plain [] [] (acc ++ [record ++ [String.mk field]]) cs
      else parseGo .plain (field ++ [c]) record acc cs

/-- Serialize a list of records (each a list of cells) to CSV text. -/
def serializeCsv (rows : List (List String)) : String :=
  String.mk (serializeRowsChars (rows.map fun r => r.map String.data))

/-- Parse CSV text back into its records. -/
def parseCsv (s : String) : List (List String) :=
  parseGo .plain [] [] [] s.data

/-- `make_csv_buffer`: serialize a dataframe with its header row and no index
column (`df.to_csv(index=False, encoding="utf-8")`). -/
def make_csv_buffer (header : List String) (rows : List (List String)) : String :=
  serializeCsv (header :: rows)

theorem mk_data (s : String) : String.mk s.data = s := by
  cases s
  rfl

theorem parseGo_esc (s : List Char) :
    ∀ (field : List Char) (record : List String) (acc : List (List String))
      (rest : List Char),
      parseGo .quoted field record acc (escChars s ++ rest)
        = parseGo .quoted (field ++ s) record acc rest := by
  induction s with
  | nil => intro field record acc rest; simp [escChars]
  | cons c cs ih =>
    intro field record acc rest
    by_cases hc : c = '"'
    · subst hc
      have h1 : escChars ('"' :: cs) ++ rest
          = '"' :: ('"' :: (escChars cs ++ rest)) := by
        simp [escChars]
      rw [h1]
      have h2 : parseGo .quoted field record acc
            ('"' :: ('"' :: (escChars cs ++ rest)))
          = parseGo .quoted (field ++ ['"']) record acc (escChars cs ++ rest) := by
        simp [parseGo]
      rw [h2, ih]
      simp
    · have h1 : escChars (c :: cs) ++ rest = c :: (escChars cs ++ rest) := by
        simp [escChars, hc]
      rw [h1]
      have h2 : parseGo .quoted field record acc (c :: (escChars cs ++ rest))
          = parseGo .quoted (field ++ [c]) record acc (escChars cs ++ rest) := by
        simp [parseGo, hc]
      rw [h2, ih]
      simp

theorem parseGo_plain_copy (s : List Char) (hs : s.any isCsvSpecial = false) :
    ∀ (field : List Char) (record : List String) (acc : List (List String))
      (rest : List Char),
      parseGo .plain field record acc (s ++ rest)
        = parseGo .plain (field ++ s) record acc rest := by
  induction s with
  | nil => intro field record acc rest; simp
  | cons c cs ih =>
    intro field record acc rest
    rw [List.any_cons, Bool.or_eq_false_iff] at hs
    obtain ⟨hc, hcs⟩ := hs
    simp only [isCsvSpecial, Bool.or_eq_false_iff, beq_eq_false_iff_ne] at hc
    obtain ⟨⟨⟨hc1, hc2⟩, hc3⟩, _⟩ := hc
    have h1 : (c :: cs) ++ rest = c :: (cs ++ rest) := rfl
    rw [h1]
    have h2 : parseGo .plain field record acc (c :: (cs ++ rest))
        = parseGo .plain (field ++ [c]) record acc (cs ++ rest) := by
      simp [parseGo, hc1, hc2, hc3]
    rw [h2, ih hcs]
    simp

theorem parseGo_cell (cell : List Char) (d : Char) (hd : d = ',' ∨ d = '\n') :
    ∀ (record : List String) (acc : List (List String)) (rest : List Char),
      parseGo .plain [] record acc (renderCellChars cell ++ d :: rest)
        = parseGo .plain cell record acc (d :: rest) := by
  intro record acc rest
  by_cases hq : cell.any isCsvSpecial = true
  · have h1 : renderCellChars cell = '"' :: (escChars cell ++ ['"']) := by
      simp [renderCellChars, hq]
    rw [h1]
    have h2 : ('"' :: (escChars cell ++ ['"'])) ++ d :: rest
        = '"' :: (escChars cell ++ ('"' :: d :: rest)) := by
      simp
    rw [h2]
    have h3 : parseGo .plain [] record acc
          ('"' :: (escChars cell ++ ('"' :: d :: rest)))
        = parseGo .quoted [] record acc (escChars cell ++ ('"' :: d :: rest)) := by
      simp [parseGo]
    rw [h3, parseGo_esc]
    have h4 : parseGo .quoted ([] ++ cell) record acc ('"' :: d :: rest)
        = parseGo .quoteSeen cell record acc (d :: rest) := by
      simp [parseGo]
    rw [h4]
    rcases hd with rfl | rfl
    · have h5 : parseGo .quoteSeen cell record acc (',' :: rest)
          = parseGo .plain [] (record ++ [String.mk cell]) acc rest := by
        simp [parseGo]
      have h6 : parseGo .plain cell record acc (',' :: rest)
          = parseGo .plain [] (record ++ [String.mk cell]) acc rest := by
        simp [parseGo]
      rw [h5, h6]
    · have h5 : parseGo .quoteSeen cell record acc ('\n' :: rest)
          = parseGo .plain [] [] (acc ++ [record ++ [String.mk cell]]) rest := by
        simp [parseGo]
      have h6 : parseGo .plain cell record acc ('\n' :: rest)
          = parseGo .plain [] [] (acc ++ [record ++ [String.mk cell]]) rest := by
        simp [parseGo]
      rw [h5, h6]
  · have hq' : cell.any isCsvSpecial = false := by
      revert hq
      cases cell.any isCsvSpecial <;> simp
    have h1 : renderCellChars cell = cell := by
      simp [renderCellChars, hq']
    rw [h1, parseGo_plain_copy cell hq']
    simp

theorem parseGo_record (r : List (List Char)) (hr : r ≠ []) :
    ∀ (record : List String) (acc : List (List String)) (rest : List Char),
      parseGo .plain [] record acc (renderRecordChars r ++ '\n' :: rest)
        = parseGo .plain [] [] (acc ++ [record ++ r.map String.mk]) rest := by
  induction r with
  | nil => exact absurd rfl hr
  | cons c r' ih =>
    intro record acc rest
    cases r' with
    | nil =>
      simp only [renderRecordChars]
      rw [parseGo_cell c '\n' (Or.inr rfl)]
      simp [parseGo]
    | cons c2 cs =>
      simp only [renderRecordChars]
      have hstep :
          (renderCellChars c ++ ',' :: renderRecordChars (c2 :: cs)) ++ '\n' :: rest
            = renderCellChars c ++ ',' :: (renderRecordChars (c2 :: cs) ++ '\n' :: rest) := by
        simp
      rw [hstep, parseGo_cell c ',' (Or.inl rfl)]
      simp only [parseGo, reduceIte]
      rw [ih (List.cons_ne_nil c2 cs)]
      simp

theorem parseGo_rows (rows : List (List (List Char)))
    (h : ∀ r ∈ rows, r ≠ []) :
    ∀ acc, parseGo .plain [] [] acc (serializeRowsChars rows)
      = acc ++ rows.map (List.map String.mk) := by
  induction rows with
  | nil => intro acc; simp [serializeRowsChars, parseGo]
  | cons r rs ih =>
    intro acc
    simp only [serializeRowsChars]
    rw [parseGo_record r (h r (List.mem_cons_self r rs))]
    rw [ih (fun x hx => h x (List.mem_cons_of_mem r hx))]
    simp

/-- Round trip: parsing serialized CSV text recovers the records exactly
(records are nonempty in every dataframe the pipeline writes). -/
theorem csv_roundtrip (rows : List (List String)) (h : ∀ r ∈ rows, r ≠ []) :
    parseCsv (serializeCsv rows) = rows := by
  unfold parseCsv serializeCsv
  have hdata :
      (String.mk (serializeRowsChars (rows.map fun r => r.map String.data))).data
        = serializeRowsChars (rows.map fun r => r.map String.data) := rfl
  rw [hdata]
  rw [parseGo_rows (rows.map fun r => r.map String.data)
    (by
      intro r hr
      rcases List.mem_map.mp hr with ⟨r0, hr0, rfl⟩
      simpa using h r0 hr0)]
  simp only [List.nil_append, List.map_map]
  have : ∀ r : List String, (List.map String.mk ∘ List.map String.data) r = r := by
    intro r
    simp only [Function.comp_apply, List.map_map]
    have : (String.mk ∘ String.data) = id := by
      funext s
      exact mk_data s
    rw [this, List.map_id]
  rw [List.map_congr_left fun r _ => this r]
  exact List.map_id rows

/-! ## Object storage model -/

/-- A stored blob: its bytes and the content type it was tagged with. -/
structure Blob where
  content : String
  contentType : Option String
  deriving DecidableEq

/-- The container: an association list from blob path to blob, newest first. -/
def BlobStore : Type := List (String × Blob)

/-- Read a blob by path (the newest write wins, i.e. overwrite semantics). -/
def getBlob (st : BlobStore) (p : String) : Option Blob :=
  (st.find? fun e => e.1 == p).map fun e => e.2

/-- `upload_blob(..., overwrite=True)`. -/
def uploadBlob (st : BlobStore) (p : String) (content : String)
    (contentType : Option String) : BlobStore :=
  (p, ⟨content, contentType⟩) :: st

/-- `delete_blob()`. -/
def deleteBlob (st : BlobStore) (p : String) : BlobStore :=
  st.filter fun e => e.1 != p

theorem getBlob_upload_same (st : BlobStore) (p : String) (c : String)
    (ct : Option String) : getBlob (uploadBlob st p c ct) p = some ⟨c, ct⟩ := by
  simp [getBlob, uploadBlob, List.find?_cons_of_pos]

theorem getBlob_upload_ne (st : BlobStore) {p q : String} (c : String)
    (ct : Option String) (h : q ≠ p) :
    getBlob (uploadBlob st p c ct) q = getBlob st q := by
  simp only [getBlob, uploadBlob]
  rw [List.find?_cons_of_neg _ (by simpa using fun he => h he.symm)]

theorem getBlob_delete_same (st : BlobStore) (p : String) :
    getBlob (deleteBlob st p) p = none := by
  simp only [getBlob, deleteBlob, Option.map_eq_none']
  induction st with
  | nil => rfl
  | cons e st ih =>
    by_cases he : e.1 = p
    · rw [show List.filter (fun e => e.1 != p) (e :: st)
            = List.filter (fun e => e.1 != p) st by simp [List.filter_cons, he]]
      exact ih
    · rw [show List.filter (fun e => e.1 != p) (e :: st)
            = e :: List.filter (fun e => e.1 != p) st by simp [List.filter_cons, he]]
      rw [List.find?_cons_of_neg _ (by simpa using he)]
      exact ih

theorem getBlob_delete_ne (st : BlobStore) {p q : String} (h : q ≠ p) :
    getBlob (deleteBlob st p) q = getBlob st q := by
  simp only [getBlob, deleteBlob]
  induction st with
  | nil => rfl
  | cons e st ih =>
    by_cases he : e.1 = p
    · rw [show List.filter (fun e => e.1 != p) (e :: st)
            = List.filter (fun e => e.1 != p) st by simp [List.filter_cons, he]]
      rw [List.find?_cons_of_neg _
        (by simp only [he, beq_iff_eq]; exact fun hpq => h hpq.symm)]
      exact ih
    · rw [show List.filter (fun e => e.1 != p) (e :: st)
            = e :: List.filter (fun e => e.1 != p) st by simp [List.filter_cons, he]]
      by_cases heq : e.1 = q
      · rw [List.find?_cons_of_pos _ (by simpa using heq),
          List.find?_cons_of_pos _ (by simpa using heq)]
      · rw [List.find?_cons_of_neg _ (by simpa using heq),
          List.find?_cons_of_neg _ (by simpa using heq)]
        exact ih

/-! ## Dataframe cell rendering and output keys -/

/-- Zero-padded two-digit field of a rendered date. -/
def padTwo (n : Nat) : String := if n < 10 then "0" ++ toString n else toString n

/-- Zero-padded four-digit year of a rendered date. -/
def padFour (n : Nat) : String :=
  if n < 10 then "000" ++ toString n
  else if n < 100 then "00" ++ toString n
  else if n < 1000 then "0" ++ toString n
  else toString n

/-- ISO rendering of a parsed timestamp cell in the CSV output. -/
def renderDate (d : Date) : String :=
  padFour d.year ++ "-" ++ padTwo d.month ++ "-" ++ padTwo d.day

/-- Column names of the song dataframe (`pd.DataFrame(..., columns=...)`). -/
def songHeader : List String :=
  ["song_id", "name", "duration_ms", "url", "popularity", "added_date",
   "album_id", "artist_id"]

/-- Column names of the artist dataframe. -/
def artistHeader : List String := ["artist_id", "name", "url"]

/-- Column names of the album dataframe. -/
def albumHeader : List String :=
  ["album_id", "name", "release_date", "total_tracks", "url"]

/-- CSV cells of one song row, in column order. -/
def songCells (r : SongRow) : List String :=
  [r.song_id, r.name, toString r.duration_ms, r.url, toString r.popularity,
   renderDate r.added_date, r.album_id, r.artist_id]

/-- CSV cells of one artist row, in column order. -/
def artistCells (r : ArtistRow) : List String := [r.artist_id, r.name, r.url]

/-- CSV cells of one album row, in column order. -/
def albumCells (r : AlbumRow) : List String :=
  [r.album_id, r.name, renderDate r.release_date, toString r.total_tracks, r.url]

/-- Output path of the song CSV for one invocation timestamp. -/
def songKey (now : String) : String :=
  "transformed_data/song_data/song_transformed_" ++ now ++ ".csv"

/-- Output path of the album CSV for one invocation timestamp. -/
def albumKey (now : String) : String :=
  "transformed_data/album_data/album_transformed_" ++ now ++ ".csv"

/-- Output path of the artist CSV for one invocation timestamp. -/
def artistKey (now : String) : String :=
  "transformed_data/artist_data/artist_transformed_" ++ now ++ ".csv"

/-- `myblob.name.split("/")[-1]`. -/
def lastSegment (s : String) : String :=
  String.mk (s.data.foldl (fun acc c => if c = '/' then [] else acc ++ [c]) [])

/-- The pending path of the triggering blob inside the container. -/
def sourcePathOf (blobName : String) : String :=
  "to_be_processed/" ++ lastSegment blobName

/-- The archive path the consumed blob is copied to. -/
def targetPathOf (blobName : String) : String :=
  "processed/" ++ lastSegment blobName

/-! ## The transformer invocation -/

/-- A step of the source-relocation phase at which an injected storage fault
occurs (each maps to one call that can raise inside the inner `try`). -/
inductive RelocStep
  | download
  | upload
  | delete
  deriving DecidableEq

/-- Observable outcome of one transformer invocation: whether the function
returned normally (`success = true`) or re-raised, and the final store. -/
structure RunOutcome where
  success : Bool
  store : BlobStore

/-- The source-relocation phase: read the pending blob, copy it under
`processed/`, delete the original.  Any fault (injected, or the source blob
being absent) is caught and logged; the invocation still succeeds. -/
def moveProcessed (blobName : String) (relocFail : Option RelocStep)
    (st : BlobStore) : RunOutcome :=
  if relocFail = some RelocStep.download then ⟨true, st⟩
  else
    match getBlob st (sourcePathOf blobName) with
    | none => ⟨true, st⟩
    | some b =>
      if relocFail = some RelocStep.upload then ⟨true, st⟩
      else
        if relocFail = some RelocStep.delete then
          ⟨true, uploadBlob st (targetPathOf blobName) b.content none⟩
        else
          ⟨true, deleteBlob (uploadBlob st (targetPathOf blobName) b.content none)
            (sourcePathOf blobName)⟩

/-- One transformer invocation on a parsed snapshot.  `now` is the
`datetime.now()` timestamp, `csvFail` injects a storage fault at one of the
three CSV uploads (song, album, artist, in code order), `relocFail` injects a
fault in the relocation phase.  A failure before or during the CSV uploads is
re-raised (`success = false`); a relocation failure is only logged. -/
def TransformSpotifyData (now blobName : String) (raw : RawData)
    (csvFail : Option (Fin 3)) (relocFail : Option RelocStep)
    (store : BlobStore) : RunOutcome :=
  match songDf raw, artistDf raw, albumDf raw with
  | some srows, some arows, some alrows =>
    if csvFail = some 0 then ⟨false, store⟩
    else
      let st1 := uploadBlob store (songKey now)
        (make_csv_buffer songHeader (srows.map songCells)) (some "text/csv")
      if csvFail = some 1 then ⟨false, st1⟩
      else
        let st2 := uploadBlob st1 (albumKey now)
          (make_csv_buffer albumHeader (alrows.map albumCells)) (some "text/csv")
        if csvFail = some 2 then ⟨false, st2⟩
        else
          let st3 := uploadBlob st2 (artistKey now)
            (make_csv_buffer artistHeader (arows.map artistCells)) (some "text/csv")
          moveProcessed blobName relocFail st3
  | _, _, _ => ⟨false, store⟩

/-! ## The extractor invocation -/

/-- An HTTP response of the trigger function. -/
structure HttpResponse where
  status : Nat
  body : String
  deriving DecidableEq

/-- Observable outcome of one extractor invocation: the HTTP response, the
final store and whether the playlist fetch was attempted. -/
structure ExtractOutcome where
  response : HttpResponse
  store : BlobStore
  fetchAttempted : Bool

/-- Python falsiness of an environment variable (`not CLIENT_ID`): the
variable is unset or the empty string. -/
def falsyEnv : Option String → Bool
  | none => true
  | some s => s == ""

/-- Path of the raw snapshot written by the extractor. -/
def rawBlobPath (now : String) : String :=
  "to_be_processed/spotify_raw_" ++ now ++ ".json"

/-- One extractor invocation.  `authRes`, `fetchRes` and `uploadRes` stand for
the outcomes of the external Spotify-client setup, the playlist fetch and the
storage upload; `fetchRes`, when successful, carries the serialized JSON the
code would dump. -/
def spotify_http_trigger (clientId clientSecret storageConn : Option String)
    (now : String) (authRes : Except String Unit)
    (fetchRes : Except String String) (uploadRes : Except String Unit)
    (store : BlobStore) : ExtractOutcome :=
  if falsyEnv clientId || falsyEnv clientSecret then
    ⟨⟨500, "Please configure Spotify API credentials in application settings."⟩,
      store, false⟩
  else if falsyEnv storageConn then
    ⟨⟨500, "Please configure Azure Storage settings in application settings."⟩,
      store, false⟩
  else
    match authRes with
    | .error e => ⟨⟨500, "Error connecting to Spotify API: " ++ e⟩, store, false⟩
    | .ok _ =>
      match fetchRes with
      | .error e =>
        ⟨⟨500, "Error retrieving playlist data: " ++ e⟩, store, true⟩
      | .ok jsonData =>
        match uploadRes with
        | .error e =>
          ⟨⟨500, "Error uploading data to storage: " ++ e⟩, store, true⟩
        | .ok _ =>
          ⟨⟨200, "Data successfully uploaded to " ++ rawBlobPath now⟩,
            uploadBlob store (rawBlobPath now) jsonData none, true⟩

/-! ## Path disjointness -/

theorem str_data_append (s t : String) : (s ++ t).data = s.data ++ t.data := by
  cases s
  cases t
  rfl

theorem str_ne_of_take {s t : String} (n : Nat)
    (h : s.data.take n ≠ t.data.take n) : s ≠ t := by
  intro he
  exact h (by rw [he])

theorem take_app {n : Nat} (l₁ l₂ : List Char) (h : n ≤ l₁.length) :
    (l₁ ++ l₂).take n = l₁.take n :=
  List.take_append_of_le_length h

theorem take_app2 {n : Nat} (l₁ l₂ l₃ : List Char) (h : n ≤ l₁.length) :
    ((l₁ ++ l₂) ++ l₃).take n = l₁.take n := by
  rw [List.take_append_of_le_length
    (le_trans h (by rw [List.length_append]; exact Nat.le_add_right _ _))]
  exact List.take_append_of_le_length h

theorem sourcePath_ne_songKey (bn now : String) :
    sourcePathOf bn ≠ songKey now := by
  apply str_ne_of_take 2
  simp only [sourcePathOf, songKey, str_data_append]
  rw [take_app _ _ (by decide), take_app2 _ _ _ (by decide)]
  decide

theorem sourcePath_ne_albumKey (bn now : String) :
    sourcePathOf bn ≠ albumKey now := by
  apply str_ne_of_take 2
  simp only [sourcePathOf, albumKey, str_data_append]
  rw [take_app _ _ (by decide), take_app2 _ _ _ (by decide)]
  decide

theorem sourcePath_ne_artistKey (bn now : String) :
    sourcePathOf bn ≠ artistKey now := by
  apply str_ne_of_take 2
  simp only [sourcePathOf, artistKey, str_data_append]
  rw [take_app _ _ (by decide), take_app2 _ _ _ (by decide)]
  decide

theorem targetPath_ne_songKey (bn now : String) :
    targetPathOf bn ≠ songKey now := by
  apply str_ne_of_take 1
  simp only [targetPathOf, songKey, str_data_append]
  rw [take_app _ _ (by decide), take_app2 _ _ _ (by decide)]
  decide

theorem targetPath_ne_albumKey (bn now : String) :
    targetPathOf bn ≠ albumKey now := by
  apply str_ne_of_take 1
  simp only [targetPathOf, albumKey, str_data_append]
  rw [take_app _ _ (by decide), take_app2 _ _ _ (by decide)]
  decide

theorem targetPath_ne_artistKey (bn now : String) :
    targetPathOf bn ≠ artistKey now := by
  apply str_ne_of_take 1
  simp only [targetPathOf, artistKey, str_data_append]
  rw [take_app _ _ (by decide), take_app2 _ _ _ (by decide)]
  decide

theorem targetPath_ne_sourcePath (bn bn' : String) :
    targetPathOf bn ≠ sourcePathOf bn' := by
  apply str_ne_of_take 1
  simp only [targetPathOf, sourcePathOf, str_data_append]
  rw [take_app _ _ (by decide), take_app _ _ (by decide)]
  decide

theorem songKey_ne_albumKey (n1 n2 : String) : songKey n1 ≠ albumKey n2 := by
  apply str_ne_of_take 30
  simp only [songKey, albumKey, str_data_append]
  rw [take_app2 _ _ _ (by decide), take_app2 _ _ _ (by decide)]
  decide

theorem songKey_ne_artistKey (n1 n2 : String) : songKey n1 ≠ artistKey n2 := by
  apply str_ne_of_take 30
  simp only [songKey, artistKey, str_data_append]
  rw [take_app2 _ _ _ (by decide), take_app2 _ _ _ (by decide)]
  decide

theorem albumKey_ne_artistKey (n1 n2 : String) : albumKey n1 ≠ artistKey n2 := by
  apply str_ne_of_take 30
  simp only [albumKey, artistKey, str_data_append]
  rw [take_app2 _ _ _ (by decide), take_app2 _ _ _ (by decide)]
  decide

/-! ## Shared facts about well-formed snapshots and failing runs -/

theorem make_all_some (data : RawData)
    (h : ∀ it ∈ data.items, wellFormedItem it = true) :
    (∃ r, make_song data = some r) ∧ (∃ r, make_artist data = some r) ∧
      (∃ r, make_album data = some r) := by
  refine ⟨?_, ?_, ?_⟩
  · exact optionMapM_isSome fun it hit => by
      rcases wellFormed_projs it (h it hit) with ⟨s, a, r, hs, _, _, _⟩
      rw [hs]; rfl
  · exact optionMapM_isSome fun it hit => by
      rcases wellFormed_projs it (h it hit) with ⟨s, a, r, _, _, hr, _⟩
      rw [hr]; rfl
  · exact optionMapM_isSome fun it hit => by
      rcases wellFormed_projs it (h it hit) with ⟨s, a, r, _, ha, _, _⟩
      rw [ha]; rfl

theorem transform_fails_of_df_none (now blobName : String) (raw : RawData)
    (csvFail : Option (Fin 3)) (relocFail : Option RelocStep) (store : BlobStore)
    (h : songDf raw = none ∨ artistDf raw = none ∨ albumDf raw = none) :
    TransformSpotifyData now blobName raw csvFail relocFail store
      = ⟨false, store⟩ := by
  rcases h with h | h | h
  · simp [TransformSpotifyData, h]
  · cases hs : songDf raw <;> simp [TransformSpotifyData, hs, h]
  · cases hs : songDf raw <;> cases ha : artistDf raw <;>
      simp [TransformSpotifyData, hs, ha, h]

/-! ## Claim C1 -/

/-- C1: for every well-formed snapshot, the song projection produces exactly
one row per item, in the snapshot's item order, with no deduplication and no
filtering; the parsed song dataframe keeps that one-row-per-item count. -/
theorem c1_song_rows_per_item (data : RawData)
    (h : ∀ it ∈ data.items, wellFormedItem it = true) :
    ∃ rows, make_song data = some rows ∧ rows.length = data.items.length ∧
      (∀ i (h1 : i < data.items.length) (h2 : i < rows.length),
        songProj (data.items.get ⟨i, h1⟩) = some (rows.get ⟨i, h2⟩)) ∧
      ∀ srows, songDf data = some srows → srows.length = data.items.length := by
  obtain ⟨⟨rows, hrows⟩, _, _⟩ := make_all_some data h
  rcases optionMapM_some_spec hrows with ⟨hlen, hget⟩
  refine ⟨rows, hrows, hlen, hget, ?_⟩
  intro srows hsr
  unfold songDf at hsr
  rw [hrows] at hsr
  simp only [Option.some_bind] at hsr
  rw [(optionMapM_some_spec hsr).1]
  exact hlen

/-! ## Claim C2 -/

/-- C2: after projection and first-seen deduplication, no two artist rows
share an `artist_id` and no two album rows share an `album_id`; the surviving
row for each key is the first one in the snapshot's item order (the rows fed
to dedup are the per-item projections in item order, and the survivor is what
`find?` locates first); artist rows come only from the first listed artist,
`artistProj` reading `track.artists[0]`. -/
theorem c2_dedup_first_seen (data : RawData)
    (h : ∀ it ∈ data.items, wellFormedItem it = true) :
    ∃ arows albrows,
      make_artist data = some arows ∧ make_album data = some albrows ∧
      artistDf data = some (dedupBy (fun r => r.artist_id) arows) ∧
      (dedupBy (fun r : ArtistRow => r.artist_id) arows).Pairwise
        (fun x y => x.artist_id ≠ y.artist_id) ∧
      (∀ r ∈ dedupBy (fun r : ArtistRow => r.artist_id) arows,
        arows.find? (fun x => decide (x.artist_id = r.artist_id)) = some r) ∧
      (dedupBy (fun r : AlbumRowRaw => r.album_id) albrows).Pairwise
        (fun x y => x.album_id ≠ y.album_id) ∧
      (∀ r ∈ dedupBy (fun r : AlbumRowRaw => r.album_id) albrows,
        albrows.find? (fun x => decide (x.album_id = r.album_id)) = some r) ∧
      (∀ i (h1 : i < data.items.length) (h2 : i < arows.length),
        artistProj (data.items.get ⟨i, h1⟩) = some (arows.get ⟨i, h2⟩)) := by
  obtain ⟨_, ⟨arows, harows⟩, ⟨albrows, halbrows⟩⟩ := make_all_some data h
  refine ⟨arows, albrows, harows, halbrows, ?_, ?_, ?_, ?_, ?_, ?_⟩
  · unfold artistDf
    rw [harows]
    rfl
  · exact dedupFrom_pairwise _ [] arows
  · intro r hr
    exact (dedupFrom_spec _ [] arows r hr).2
  · exact dedupFrom_pairwise _ [] albrows
  · intro r hr
    exact (dedupFrom_spec _ [] albrows r hr).2
  · exact (optionMapM_some_spec harows).2

/-! ## Claim C4 -/

/-- C4: a snapshot with at least one item missing a required field makes the
whole transformer invocation fail (the error is re-raised) with the store
untouched: none of the three CSV outputs is written, no per-row skipping. -/
theorem c4_missing_field_fails (now blobName : String) (raw : RawData)
    (csvFail : Option (Fin 3)) (relocFail : Option RelocStep) (store : BlobStore)
    (h : ∃ it ∈ raw.items, wellFormedItem it = false) :
    TransformSpotifyData now blobName raw csvFail relocFail store
      = ⟨false, store⟩ := by
  obtain ⟨it, hit, hwf⟩ := h
  have hnone : albumProj it = none ∨ artistProj it = none ∨ songProj it = none := by
    by_cases ha : albumProj it = none
    · exact Or.inl ha
    by_cases hr : artistProj it = none
    · exact Or.inr (Or.inl hr)
    by_cases hs : songProj it = none
    · exact Or.inr (Or.inr hs)
    exfalso
    have := projs_wellFormed it
      (Option.isSome_iff_ne_none.mpr ha)
      (Option.isSome_iff_ne_none.mpr hr)
      (Option.isSome_iff_ne_none.mpr hs)
    rw [hwf] at this
    exact Bool.false_ne_true this
  apply transform_fails_of_df_none
  rcases hnone with hn | hn | hn
  · refine Or.inr (Or.inr ?_)
    have : make_album raw = none := optionMapM_eq_none hit hn
    simp [albumDf, this]
  · refine Or.inr (Or.inl ?_)
    have : make_artist raw = none := optionMapM_eq_none hit hn
    simp [artistDf, this]
  · refine Or.inl ?_
    have : make_song raw = none := optionMapM_eq_none hit hn
    simp [songDf, this]

/-! ## Claim C8 -/

/-- C8: date parsing accepts a full calendar date and a year-only value,
producing valid, chronologically comparable timestamps; a date string the
transformation parses but cannot parse successfully — a song-added timestamp
of any item, or the release date of an album row that survives deduplication
(dedup runs before the parse at lines 98-99, so only surviving rows are
parsed) — makes the whole transformation for that file fail. -/
theorem c8_date_precisions :
    parseDate "2023-05-11" = some ⟨2023, 5, 11⟩ ∧
    parseDate "1987" = some ⟨1987, 1, 1⟩ ∧
    Date.key ⟨1987, 1, 1⟩ < Date.key ⟨2023, 5, 11⟩ ∧
    ∀ (now blobName : String) (raw : RawData) (csvFail : Option (Fin 3))
      (relocFail : Option RelocStep) (store : BlobStore),
      (∀ it ∈ raw.items, wellFormedItem it = true) →
      ((∃ it ∈ raw.items, ∃ s, it.added_at = some s ∧ parseDate s = none) ∨
        (∃ albrows, make_album raw = some albrows ∧
          ∃ r ∈ dedupBy (fun r : AlbumRowRaw => r.album_id) albrows,
            parseDate r.release_date = none)) →
      TransformSpotifyData now blobName raw csvFail relocFail store
        = ⟨false, store⟩ := by
  refine ⟨by decide, by decide, by decide, ?_⟩
  intro now blobName raw csvFail relocFail store hwf hbad
  rcases hbad with hbad | hbad
  · obtain ⟨it, hit, s, hadd, hps⟩ := hbad
    rcases wellFormed_projs it (hwf it hit) with ⟨srow, a, r, hs, _, _, _, _, haddeq⟩
    have hseq : srow.added_at = s := by
      rw [haddeq] at hadd
      exact Option.some_inj.mp hadd
    obtain ⟨⟨rows, hrows⟩, _, _⟩ := make_all_some raw hwf
    obtain ⟨y, hy, hfy⟩ := optionMapM_mem_fwd hrows it hit
    have hysrow : y = srow := by
      rw [hs] at hfy
      exact (Option.some_inj.mp hfy.symm)
    subst hysrow
    have hparse : parseSongRow y = none := by
      simp [parseSongRow, hseq, hps]
    apply transform_fails_of_df_none
    refine Or.inl ?_
    have : optionMapM parseSongRow rows = none := optionMapM_eq_none hy hparse
    simp [songDf, hrows, this]
  · obtain ⟨albrows, halb, r, hrmem, hrdate⟩ := hbad
    apply transform_fails_of_df_none
    refine Or.inr (Or.inr ?_)
    have hparse : parseAlbumRow r = none := by
      simp [parseAlbumRow, hrdate]
    have hnone : optionMapM parseAlbumRow
        (dedupBy (fun r : AlbumRowRaw => r.album_id) albrows) = none :=
      optionMapM_eq_none hrmem hparse
    simp [albumDf, halb, hnone]

/-! ## Claim C3 -/

/-- C3: every album_id and artist_id of an output song row also keys a row of
the output album and artist row-sets of the same run: referential integrity
holds by construction and survives deduplication and date parsing. -/
theorem c3_referential_integrity (data : RawData)
    (srows : List SongRow) (arows : List ArtistRow) (albrows : List AlbumRow)
    (h : ∀ it ∈ data.items, wellFormedItem it = true)
    (hs : songDf data = some srows) (ha : artistDf data = some arows)
    (hal : albumDf data = some albrows) :
    ∀ s ∈ srows, (∃ a ∈ albrows, a.album_id = s.album_id) ∧
      ∃ r ∈ arows, r.artist_id = s.artist_id := by
  intro s hsmem
  unfold songDf at hs
  rcases Option.bind_eq_some.mp hs with ⟨rows, hrows, hparse⟩
  obtain ⟨sraw, hsrawmem, hsrawparse⟩ := optionMapM_mem_rev hparse s hsmem
  obtain ⟨hsalb, hsart, _⟩ := parseSongRow_ids hsrawparse
  obtain ⟨it, hitmem, hitproj⟩ := optionMapM_mem_rev hrows sraw hsrawmem
  rcases wellFormed_projs it (h it hitmem) with
    ⟨s2, a0, r0, hs2, ha0, hr0, halbid, hartid, _⟩
  have hs2eq : s2 = sraw := by
    rw [hs2] at hitproj
    exact Option.some_inj.mp hitproj
  subst hs2eq
  constructor
  · unfold albumDf at hal
    rcases Option.bind_eq_some.mp hal with ⟨albraw, halbraw, halbparse⟩
    obtain ⟨a1, ha1mem, ha1proj⟩ := optionMapM_mem_fwd halbraw it hitmem
    have ha1eq : a1 = a0 := by
      rw [ha0] at ha1proj
      exact Option.some_inj.mp ha1proj.symm
    subst ha1eq
    obtain ⟨a2, ha2mem, ha2key⟩ :=
      dedupFrom_exists_key (fun r : AlbumRowRaw => r.album_id) [] albraw a1
        ha1mem (by simp)
    obtain ⟨a3, ha3mem, ha3parse⟩ := optionMapM_mem_fwd halbparse a2 ha2mem
    refine ⟨a3, ha3mem, ?_⟩
    rw [parseAlbumRow_id ha3parse, ha2key, halbid, hsalb]
  · unfold artistDf at ha
    rcases Option.map_eq_some'.mp ha with ⟨artraw, hartraw, harowseq⟩
    obtain ⟨r1, hr1mem, hr1proj⟩ := optionMapM_mem_fwd hartraw it hitmem
    have hr1eq : r1 = r0 := by
      rw [hr0] at hr1proj
      exact Option.some_inj.mp hr1proj.symm
    subst hr1eq
    obtain ⟨r2, hr2mem, hr2key⟩ :=
      dedupFrom_exists_key (fun r : ArtistRow => r.artist_id) [] artraw r1
        hr1mem (by simp)
    refine ⟨r2, ?_, ?_⟩
    · rw [← harowseq]
      exact hr2mem
    · rw [hr2key, hartid, hsart]

/-! ## Successful-run helpers -/

theorem transform_reaches_reloc (now blobName : String) (raw : RawData)
    (relocFail : Option RelocStep) (store : BlobStore)
    (srows : List SongRow) (arows : List ArtistRow) (alrows : List AlbumRow)
    (hs : songDf raw = some srows) (ha : artistDf raw = some arows)
    (hal : albumDf raw = some alrows) :
    TransformSpotifyData now blobName raw none relocFail store
      = moveProcessed blobName relocFail
          (uploadBlob
            (uploadBlob
              (uploadBlob store (songKey now)
                (make_csv_buffer songHeader (srows.map songCells))
                (some "text/csv"))
              (albumKey now)
              (make_csv_buffer albumHeader (alrows.map albumCells))
              (some "text/csv"))
            (artistKey now)
            (make_csv_buffer artistHeader (arows.map artistCells))
            (some "text/csv")) := by
  simp [TransformSpotifyData, hs, ha, hal]

theorem moveProcessed_success (bn : String) (rf : Option RelocStep)
    (st : BlobStore) : (moveProcessed bn rf st).success = true := by
  unfold moveProcessed
  split
  · rfl
  · split
    · rfl
    · split
      · rfl
      · split
        · rfl
        · rfl

theorem moveProcessed_getBlob_other (bn : String) (rf : Option RelocStep)
    (st : BlobStore) (p : String) (h1 : p ≠ targetPathOf bn)
    (h2 : p ≠ sourcePathOf bn) :
    getBlob (moveProcessed bn rf st).store p = getBlob st p := by
  unfold moveProcessed
  split
  · rfl
  · split
    · rfl
    · split
      · rfl
      · split
        · exact getBlob_upload_ne st _ _ h1
        · rw [getBlob_delete_ne _ h2]
          exact getBlob_upload_ne st _ _ h1

theorem moveProcessed_fail_source (bn : String) (step : RelocStep)
    (st : BlobStore) :
    getBlob (moveProcessed bn (some step) st).store (sourcePathOf bn)
      = getBlob st (sourcePathOf bn) := by
  cases step
  · simp [moveProcessed]
  · cases h : getBlob st (sourcePathOf bn) with
    | none => simp [moveProcessed, h]
    | some b => simp [moveProcessed, h]
  · cases h : getBlob st (sourcePathOf bn) with
    | none => simp [moveProcessed, h]
    | some b =>
      have hmv : moveProcessed bn (some RelocStep.delete) st
          = ⟨true, uploadBlob st (targetPathOf bn) b.content none⟩ := by
        simp [moveProcessed, h]
      rw [hmv]
      exact (getBlob_upload_ne st _ _
        (Ne.symm (targetPath_ne_sourcePath bn bn))).trans h

/-! ## Claim C5 -/

/-- C5: if all three CSV uploads succeed but a step of the source-relocation
phase fails, the invocation still completes successfully (the error is only
logged) and the source blob is still present under to_be_processed/. -/
theorem c5_reloc_failure_nonfatal (now blobName : String) (raw : RawData)
    (step : RelocStep) (store : BlobStore) (b : Blob)
    (srows : List SongRow) (arows : List ArtistRow) (alrows : List AlbumRow)
    (hs : songDf raw = some srows) (ha : artistDf raw = some arows)
    (hal : albumDf raw = some alrows)
    (hsrc : getBlob store (sourcePathOf blobName) = some b) :
    (TransformSpotifyData now blobName raw none (some step) store).success
        = true ∧
      getBlob (TransformSpotifyData now blobName raw none (some step) store).store
        (sourcePathOf blobName) = some b := by
  rw [transform_reaches_reloc now blobName raw (some step) store srows arows
    alrows hs ha hal]
  refine ⟨moveProcessed_success _ _ _, ?_⟩
  rw [moveProcessed_fail_source]
  rw [getBlob_upload_ne _ _ _ (sourcePath_ne_artistKey blobName now)]
  rw [getBlob_upload_ne _ _ _ (sourcePath_ne_albumKey blobName now)]
  rw [getBlob_upload_ne _ _ _ (sourcePath_ne_songKey blobName now)]
  exact hsrc

/-! ## Claim C7 -/

/-- C7: a successful transformer invocation writes the three CSVs to the
documented `transformed_data/...` paths in the container, each tagged
`text/csv`, all three sharing the single invocation timestamp `now` (the
paths do not depend on the source snapshot's name or timestamp). -/
theorem c7_output_placement (now blobName : String) (raw : RawData)
    (relocFail : Option RelocStep) (store : BlobStore)
    (srows : List SongRow) (arows : List ArtistRow) (alrows : List AlbumRow)
    (hs : songDf raw = some srows) (ha : artistDf raw = some arows)
    (hal : albumDf raw = some alrows) :
    (TransformSpotifyData now blobName raw none relocFail store).success
        = true ∧
      songKey now
        = "transformed_data/song_data/song_transformed_" ++ now ++ ".csv" ∧
      albumKey now
        = "transformed_data/album_data/album_transformed_" ++ now ++ ".csv" ∧
      artistKey now
        = "transformed_data/artist_data/artist_transformed_" ++ now ++ ".csv" ∧
      getBlob (TransformSpotifyData now blobName raw none relocFail store).store
          (songKey now)
        = some ⟨make_csv_buffer songHeader (srows.map songCells),
            some "text/csv"⟩ ∧
      getBlob (TransformSpotifyData now blobName raw none relocFail store).store
          (albumKey now)
        = some ⟨make_csv_buffer albumHeader (alrows.map albumCells),
            some "text/csv"⟩ ∧
      getBlob (TransformSpotifyData now blobName raw none relocFail store).store
          (artistKey now)
        = some ⟨make_csv_buffer artistHeader (arows.map artistCells),
            some "text/csv"⟩ := by
  rw [transform_reaches_reloc now blobName raw relocFail store srows arows
    alrows hs ha hal]
  refine ⟨moveProcessed_success _ _ _, rfl, rfl, rfl, ?_, ?_, ?_⟩
  · rw [moveProcessed_getBlob_other _ _ _ _
      (Ne.symm (targetPath_ne_songKey blobName now))
      (Ne.symm (sourcePath_ne_songKey blobName now))]
    rw [getBlob_upload_ne _ _ _ (songKey_ne_artistKey now now)]
    rw [getBlob_upload_ne _ _ _ (songKey_ne_albumKey now now)]
    exact getBlob_upload_same _ _ _ _
  · rw [moveProcessed_getBlob_other _ _ _ _
      (Ne.symm (targetPath_ne_albumKey blobName now))
      (Ne.symm (sourcePath_ne_albumKey blobName now))]
    rw [getBlob_upload_ne _ _ _ (albumKey_ne_artistKey now now)]
    exact getBlob_upload_same _ _ _ _
  · rw [moveProcessed_getBlob_other _ _ _ _
      (Ne.symm (targetPath_ne_artistKey blobName now))
      (Ne.symm (sourcePath_ne_artistKey blobName now))]
    exact getBlob_upload_same _ _ _ _

/-! ## Claim C10 -/

/-- C10: on a snapshot whose items list is present but empty, the invocation
succeeds, all three CSVs are written containing only their header row, and
the source blob is relocated: copied under `processed/` and deleted from
`to_be_processed/`. -/
theorem c10_empty_snapshot (now blobName : String) (raw : RawData)
    (store : BlobStore) (b : Blob) (hitems : raw.items = [])
    (hsrc : getBlob store (sourcePathOf blobName) = some b) :
    (TransformSpotifyData now blobName raw none none store).success = true ∧
      getBlob (TransformSpotifyData now blobName raw none none store).store
          (songKey now)
        = some ⟨"song_id,name,duration_ms,url,popularity,added_date,album_id,artist_id\n",
            some "text/csv"⟩ ∧
      getBlob (TransformSpotifyData now blobName raw none none store).store
          (albumKey now)
        = some ⟨"album_id,name,release_date,total_tracks,url\n",
            some "text/csv"⟩ ∧
      getBlob (TransformSpotifyData now blobName raw none none store).store
          (artistKey now)
        = some ⟨"artist_id,name,url\n", some "text/csv"⟩ ∧
      getBlob (TransformSpotifyData now blobName raw none none store).store
          (sourcePathOf blobName) = none ∧
      getBlob (TransformSpotifyData now blobName raw none none store).store
          (targetPathOf blobName) = some ⟨b.content, none⟩ := by
  rcases raw with ⟨items⟩
  subst hitems
  have hs : songDf ⟨[]⟩ = some [] := rfl
  have ha : artistDf ⟨[]⟩ = some [] := rfl
  have hal : albumDf ⟨[]⟩ = some [] := rfl
  rw [transform_reaches_reloc now blobName ⟨[]⟩ none store [] [] [] hs ha hal]
  set st3 := uploadBlob
    (uploadBlob
      (uploadBlob store (songKey now)
        (make_csv_buffer songHeader (List.map songCells []))
        (some "text/csv"))
      (albumKey now)
      (make_csv_buffer albumHeader (List.map albumCells []))
      (some "text/csv"))
    (artistKey now)
    (make_csv_buffer artistHeader (List.map artistCells []))
    (some "text/csv") with hst3
  have hsrc3 : getBlob st3 (sourcePathOf blobName) = some b := by
    rw [hst3]
    rw [getBlob_upload_ne _ _ _ (sourcePath_ne_artistKey blobName now)]
    rw [getBlob_upload_ne _ _ _ (sourcePath_ne_albumKey blobName now)]
    rw [getBlob_upload_ne _ _ _ (sourcePath_ne_songKey blobName now)]
    exact hsrc
  have hmv : (moveProcessed blobName none st3).store
      = deleteBlob (uploadBlob st3 (targetPathOf blobName) b.content none)
          (sourcePathOf blobName) := by
    simp [moveProcessed, hsrc3]
  have hmvs : (moveProcessed blobName none st3).success = true := by
    simp [moveProcessed, hsrc3]
  refine ⟨hmvs, ?_, ?_, ?_, ?_, ?_⟩
  · rw [hmv]
    rw [getBlob_delete_ne _ (Ne.symm (sourcePath_ne_songKey blobName now))]
    rw [getBlob_upload_ne _ _ _ (Ne.symm (targetPath_ne_songKey blobName now))]
    rw [hst3]
    rw [getBlob_upload_ne _ _ _ (songKey_ne_artistKey now now)]
    rw [getBlob_upload_ne _ _ _ (songKey_ne_albumKey now now)]
    rw [getBlob_upload_same]
    congr 1
  · rw [hmv]
    rw [getBlob_delete_ne _ (Ne.symm (sourcePath_ne_albumKey blobName now))]
    rw [getBlob_upload_ne _ _ _ (Ne.symm (targetPath_ne_albumKey blobName now))]
    rw [hst3]
    rw [getBlob_upload_ne _ _ _ (albumKey_ne_artistKey now now)]
    rw [getBlob_upload_same]
    congr 1
  · rw [hmv]
    rw [getBlob_delete_ne _ (Ne.symm (sourcePath_ne_artistKey blobName now))]
    rw [getBlob_upload_ne _ _ _ (Ne.symm (targetPath_ne_artistKey blobName now))]
    rw [hst3]
    rw [getBlob_upload_same]
    congr 1
  · rw [hmv]
    exact getBlob_delete_same _ _
  · rw [hmv]
    rw [getBlob_delete_ne _ (targetPath_ne_sourcePath blobName blobName)]
    exact getBlob_upload_same _ _ _ _

/-! ## Claim C6 -/

/-- C6: an extractor invocation with a missing (or empty) API client id or
client secret answers HTTP 500 with the credential-configuration message, and
neither the playlist fetch nor any storage write is attempted. -/
theorem c6_missing_credentials (clientId clientSecret storageConn : Option String)
    (now : String) (authRes : Except String Unit)
    (fetchRes : Except String String) (uploadRes : Except String Unit)
    (store : BlobStore)
    (h : falsyEnv clientId = true ∨ falsyEnv clientSecret = true) :
    (spotify_http_trigger clientId clientSecret storageConn now authRes
        fetchRes uploadRes store).response.status = 500 ∧
      (spotify_http_trigger clientId clientSecret storageConn now authRes
        fetchRes uploadRes store).response.body
        = "Please configure Spotify API credentials in application settings." ∧
      (spotify_http_trigger clientId clientSecret storageConn now authRes
        fetchRes uploadRes store).fetchAttempted = false ∧
      (spotify_http_trigger clientId clientSecret storageConn now authRes
        fetchRes uploadRes store).store = store := by
  have hcond : (falsyEnv clientId || falsyEnv clientSecret) = true := by
    rcases h with h | h <;> simp [h]
  simp [spotify_http_trigger, hcond]

/-! ## Claim C9 -/

/-- C9: the CSV serializer is deterministic (a pure function of the row-set)
and idempotent: parsing its output and re-serializing reproduces the
byte-identical text; the output carries a header row with the documented
column names and no row-index column. -/
theorem c9_csv_idempotent (header : List String) (rows : List (List String))
    (h1 : header ≠ []) (h2 : ∀ r ∈ rows, r ≠ []) :
    parseCsv (make_csv_buffer header rows) = header :: rows ∧
      serializeCsv (parseCsv (make_csv_buffer header rows))
        = make_csv_buffer header rows ∧
      songHeader = ["song_id", "name", "duration_ms", "url", "popularity",
        "added_date", "album_id", "artist_id"] ∧
      albumHeader = ["album_id", "name", "release_date", "total_tracks", "url"] ∧
      artistHeader = ["artist_id", "name", "url"] := by
  have hall : ∀ r ∈ header :: rows, r ≠ [] := by
    intro r hr
    rcases List.mem_cons.mp hr with rfl | htail
    · exact h1
    · exact h2 r htail
  have hrt : parseCsv (serializeCsv (header :: rows)) = header :: rows :=
    csv_roundtrip _ hall
  refine ⟨hrt, ?_, rfl, rfl, rfl⟩
  show serializeCsv (parseCsv (serializeCsv (header :: rows)))
    = serializeCsv (header :: rows)
  rw [hrt]

/-! ## Concrete sample data for the witnesses -/

/-- An empty store. -/
def emptyStore : BlobStore := []

/-- A store holding one pending raw snapshot. -/
def sampleStore : BlobStore :=
  [("to_be_processed/x.json", ⟨"rawjson", none⟩)]

def sampleAlbumA : RawAlbum :=
  ⟨some "alb1", some "Album One", some "2020-01-02", some 10, some "urlA"⟩

def sampleAlbumB : RawAlbum :=
  ⟨some "alb2", some "Album Two", some "1987", some 8, some "urlB"⟩

def sampleArtistX : RawArtist := ⟨some "art1", some "Artist One", some "urlX"⟩

def sampleArtistY : RawArtist := ⟨some "art2", some "Artist Two", some "urlY"⟩

def sampleItem1 : RawItem :=
  ⟨some ⟨some "s1", some "Song1", some 200, some "u1", some 50,
    some sampleAlbumA, [sampleArtistX]⟩, some "2023-05-11"⟩

def sampleItem2 : RawItem :=
  ⟨some ⟨some "s2", some "Song2", some 180, some "u2", some 40,
    some sampleAlbumA, [sampleArtistY]⟩, some "2023-05-11"⟩

def sampleItem3 : RawItem :=
  ⟨some ⟨some "s3", some "Song3", some 210, some "u3", some 30,
    some sampleAlbumB, [sampleArtistX, sampleArtistY]⟩, some "1987"⟩

/-- The specification's scenario snapshot: three items, two sharing an album
and two sharing a first artist. -/
def sampleRaw : RawData := ⟨[sampleItem1, sampleItem2, sampleItem3]⟩

def sampleSongRows : List SongRow :=
  [⟨"s1", "Song1", 200, "u1", 50, ⟨2023, 5, 11⟩, "alb1", "art1"⟩,
   ⟨"s2", "Song2", 180, "u2", 40, ⟨2023, 5, 11⟩, "alb1", "art2"⟩,
   ⟨"s3", "Song3", 210, "u3", 30, ⟨1987, 1, 1⟩, "alb2", "art1"⟩]

def sampleArtistRows : List ArtistRow :=
  [⟨"art1", "Artist One", "urlX"⟩, ⟨"art2", "Artist Two", "urlY"⟩]

def sampleAlbumRows : List AlbumRow :=
  [⟨"alb1", "Album One", ⟨2020, 1, 2⟩, 10, "urlA"⟩,
   ⟨"alb2", "Album Two", ⟨1987, 1, 1⟩, 8, "urlB"⟩]

/-- An item missing its `track.album` object. -/
def badItem : RawItem :=
  ⟨some ⟨some "s4", some "Song4", some 150, some "u4", some 20, none,
    [sampleArtistX]⟩, some "2023-05-11"⟩

def badRaw : RawData := ⟨[sampleItem1, badItem]⟩

/-- A well-formed item whose add timestamp does not parse as a date. -/
def badDateItem : RawItem :=
  ⟨some ⟨some "s5", some "Song5", some 150, some "u5", some 20,
    some sampleAlbumA, [sampleArtistX]⟩, some "not-a-date"⟩

def badDateRaw : RawData := ⟨[badDateItem]⟩

/-- A well-formed item whose album release date does not parse as a date. -/
def badReleaseItem : RawItem :=
  ⟨some ⟨some "s6", some "Song6", some 160, some "u6", some 25,
    some ⟨some "alb3", some "Album Three", some "bad-date", some 5,
      some "urlC"⟩, [sampleArtistX]⟩, some "2023-05-11"⟩

def badReleaseRaw : RawData := ⟨[badReleaseItem]⟩

/-- The album row projected from `badReleaseItem` (it survives dedup). -/
def badReleaseRow : AlbumRowRaw := ⟨"alb3", "Album Three", "bad-date", 5, "urlC"⟩

/-- A snapshot with a present but empty items list. -/
def emptyRaw : RawData := ⟨[]⟩

/-! ## Witnesses -/

/-- Witness for C1 at the scenario snapshot. -/
theorem c1_witness :
    (∀ it ∈ sampleRaw.items, wellFormedItem it = true) ∧
    (∃ rows, make_song sampleRaw = some rows ∧
      rows.length = sampleRaw.items.length ∧
      (∀ i (h1 : i < sampleRaw.items.length) (h2 : i < rows.length),
        songProj (sampleRaw.items.get ⟨i, h1⟩) = some (rows.get ⟨i, h2⟩)) ∧
      ∀ srows, songDf sampleRaw = some srows →
        srows.length = sampleRaw.items.length) :=
  ⟨by decide, c1_song_rows_per_item sampleRaw (by decide)⟩

/-- Witness for C2 at the scenario snapshot. -/
theorem c2_witness :
    (∀ it ∈ sampleRaw.items, wellFormedItem it = true) ∧
    (∃ arows albrows,
      make_artist sampleRaw = some arows ∧ make_album sampleRaw = some albrows ∧
      artistDf sampleRaw = some (dedupBy (fun r => r.artist_id) arows) ∧
      (dedupBy (fun r : ArtistRow => r.artist_id) arows).Pairwise
        (fun x y => x.artist_id ≠ y.artist_id) ∧
      (∀ r ∈ dedupBy (fun r : ArtistRow => r.artist_id) arows,
        arows.find? (fun x => decide (x.artist_id = r.artist_id)) = some r) ∧
      (dedupBy (fun r : AlbumRowRaw => r.album_id) albrows).Pairwise
        (fun x y => x.album_id ≠ y.album_id) ∧
      (∀ r ∈ dedupBy (fun r : AlbumRowRaw => r.album_id) albrows,
        albrows.find? (fun x => decide (x.album_id = r.album_id)) = some r) ∧
      (∀ i (h1 : i < sampleRaw.items.length) (h2 : i < arows.length),
        artistProj (sampleRaw.items.get ⟨i, h1⟩) = some (arows.get ⟨i, h2⟩))) :=
  ⟨by decide, c2_dedup_first_seen sampleRaw (by decide)⟩

/-- Witness for C3 at the scenario snapshot. -/
theorem c3_witness :
    ((∀ it ∈ sampleRaw.items, wellFormedItem it = true) ∧
      songDf sampleRaw = some sampleSongRows ∧
      artistDf sampleRaw = some sampleArtistRows ∧
      albumDf sampleRaw = some sampleAlbumRows) ∧
    (∀ s ∈ sampleSongRows,
      (∃ a ∈ sampleAlbumRows, a.album_id = s.album_id) ∧
        ∃ r ∈ sampleArtistRows, r.artist_id = s.artist_id) :=
  ⟨⟨by decide, by decide, by decide, by decide⟩,
    c3_referential_integrity sampleRaw sampleSongRows sampleArtistRows
      sampleAlbumRows (by decide) (by decide) (by decide) (by decide)⟩

/-- Witness for C4: one item of the snapshot lacks `track.album`. -/
theorem c4_witness :
    (∃ it ∈ badRaw.items, wellFormedItem it = false) ∧
    TransformSpotifyData "20240101000000" "raw/to_be_processed/x.json" badRaw
      none none emptyStore = ⟨false, emptyStore⟩ :=
  ⟨by decide, c4_missing_field_fails "20240101000000"
    "raw/to_be_processed/x.json" badRaw none none emptyStore (by decide)⟩

/-- Witness for C5: the relocation upload step fails. -/
theorem c5_witness :
    (songDf sampleRaw = some sampleSongRows ∧
      artistDf sampleRaw = some sampleArtistRows ∧
      albumDf sampleRaw = some sampleAlbumRows ∧
      getBlob sampleStore (sourcePathOf "raw/to_be_processed/x.json")
        = some ⟨"rawjson", none⟩) ∧
    ((TransformSpotifyData "20240101000000" "raw/to_be_processed/x.json"
        sampleRaw none (some RelocStep.upload) sampleStore).success = true ∧
      getBlob (TransformSpotifyData "20240101000000"
          "raw/to_be_processed/x.json" sampleRaw none (some RelocStep.upload)
          sampleStore).store (sourcePathOf "raw/to_be_processed/x.json")
        = some ⟨"rawjson", none⟩) :=
  ⟨⟨by decide, by decide, by decide, by decide⟩,
    c5_reloc_failure_nonfatal "20240101000000" "raw/to_be_processed/x.json"
      sampleRaw RelocStep.upload sampleStore ⟨"rawjson", none⟩ sampleSongRows
      sampleArtistRows sampleAlbumRows (by decide) (by decide) (by decide)
      (by decide)⟩

/-- Witness for C6: the client id is unset. -/
theorem c6_witness :
    (falsyEnv none = true ∨ falsyEnv (some "sec") = true) ∧
    ((spotify_http_trigger none (some "sec") (some "conn") "t" (Except.ok ())
        (Except.ok "data") (Except.ok ()) emptyStore).response.status = 500 ∧
      (spotify_http_trigger none (some "sec") (some "conn") "t" (Except.ok ())
        (Except.ok "data") (Except.ok ()) emptyStore).response.body
        = "Please configure Spotify API credentials in application settings." ∧
      (spotify_http_trigger none (some "sec") (some "conn") "t" (Except.ok ())
        (Except.ok "data") (Except.ok ()) emptyStore).fetchAttempted = false ∧
      (spotify_http_trigger none (some "sec") (some "conn") "t" (Except.ok ())
        (Except.ok "data") (Except.ok ()) emptyStore).store = emptyStore) :=
  ⟨Or.inl rfl, c6_missing_credentials none (some "sec") (some "conn") "t"
    (Except.ok ()) (Except.ok "data") (Except.ok ()) emptyStore (Or.inl rfl)⟩

/-- Witness for C7 at the scenario snapshot. -/
theorem c7_witness :
    (songDf sampleRaw = some sampleSongRows ∧
      artistDf sampleRaw = some sampleArtistRows ∧
      albumDf sampleRaw = some sampleAlbumRows) ∧
    ((TransformSpotifyData "20240101000000" "raw/to_be_processed/x.json"
        sampleRaw none none emptyStore).success = true ∧
      songKey "20240101000000"
        = "transformed_data/song_data/song_transformed_" ++ "20240101000000"
            ++ ".csv" ∧
      albumKey "20240101000000"
        = "transformed_data/album_data/album_transformed_" ++ "20240101000000"
            ++ ".csv" ∧
      artistKey "20240101000000"
        = "transformed_data/artist_data/artist_transformed_" ++ "20240101000000"
            ++ ".csv" ∧
      getBlob (TransformSpotifyData "20240101000000"
          "raw/to_be_processed/x.json" sampleRaw none none emptyStore).store
          (songKey "20240101000000")
        = some ⟨make_csv_buffer songHeader (sampleSongRows.map songCells),
            some "text/csv"⟩ ∧
      getBlob (TransformSpotifyData "20240101000000"
          "raw/to_be_processed/x.json" sampleRaw none none emptyStore).store
          (albumKey "20240101000000")
        = some ⟨make_csv_buffer albumHeader (sampleAlbumRows.map albumCells),
            some "text/csv"⟩ ∧
      getBlob (TransformSpotifyData "20240101000000"
          "raw/to_be_processed/x.json" sampleRaw none none emptyStore).store
          (artistKey "20240101000000")
        = some ⟨make_csv_buffer artistHeader (sampleArtistRows.map artistCells),
            some "text/csv"⟩) :=
  ⟨⟨by decide, by decide, by decide⟩,
    c7_output_placement "20240101000000" "raw/to_be_processed/x.json" sampleRaw
      none emptyStore sampleSongRows sampleArtistRows sampleAlbumRows
      (by decide) (by decide) (by decide)⟩

/-- Witness for C8, exercising both fatality channels: a snapshot whose add
timestamp is not a date, and a snapshot whose surviving album row has an
unparseable release date. -/
theorem c8_witness :
    ((∀ it ∈ badDateRaw.items, wellFormedItem it = true) ∧
      (∃ it ∈ badDateRaw.items, ∃ s, it.added_at = some s ∧
        parseDate s = none) ∧
      TransformSpotifyData "t" "raw/to_be_processed/x.json" badDateRaw none
        none emptyStore = ⟨false, emptyStore⟩) ∧
    ((∀ it ∈ badReleaseRaw.items, wellFormedItem it = true) ∧
      (∃ albrows, make_album badReleaseRaw = some albrows ∧
        ∃ r ∈ dedupBy (fun r : AlbumRowRaw => r.album_id) albrows,
          parseDate r.release_date = none) ∧
      TransformSpotifyData "t" "raw/to_be_processed/x.json" badReleaseRaw none
        none emptyStore = ⟨false, emptyStore⟩) :=
  ⟨⟨by decide, ⟨badDateItem, by decide, "not-a-date", by decide, by decide⟩,
    c8_date_precisions.2.2.2 "t" "raw/to_be_processed/x.json" badDateRaw none
      none emptyStore (by decide)
      (Or.inl ⟨badDateItem, by decide, "not-a-date", by decide, by decide⟩)⟩,
   ⟨by decide, ⟨[badReleaseRow], by decide, badReleaseRow, by decide,
      by decide⟩,
    c8_date_precisions.2.2.2 "t" "raw/to_be_processed/x.json" badReleaseRaw
      none none emptyStore (by decide)
      (Or.inr ⟨[badReleaseRow], by decide, badReleaseRow, by decide,
        by decide⟩)⟩⟩

/-- Witness for C9 on a row with an embedded comma and an embedded quote. -/
theorem c9_witness :
    (songHeader ≠ [] ∧
      ∀ r ∈ [["a,b", "c\"d", "e"]], r ≠ ([] : List String)) ∧
    (parseCsv (make_csv_buffer songHeader [["a,b", "c\"d", "e"]])
        = songHeader :: [["a,b", "c\"d", "e"]] ∧
      serializeCsv (parseCsv (make_csv_buffer songHeader [["a,b", "c\"d", "e"]]))
        = make_csv_buffer songHeader [["a,b", "c\"d", "e"]] ∧
      songHeader = ["song_id", "name", "duration_ms", "url", "popularity",
        "added_date", "album_id", "artist_id"] ∧
      albumHeader = ["album_id", "name", "release_date", "total_tracks", "url"] ∧
      artistHeader = ["artist_id", "name", "url"]) :=
  ⟨⟨by decide, by decide⟩,
    c9_csv_idempotent songHeader [["a,b", "c\"d", "e"]] (by decide) (by decide)⟩

/-- Witness for C10 on a snapshot with an empty items list. -/
theorem c10_witness :
    (emptyRaw.items = [] ∧
      getBlob sampleStore (sourcePathOf "raw/to_be_processed/x.json")
        = some ⟨"rawjson", none⟩) ∧
    ((TransformSpotifyData "20240101000000" "raw/to_be_processed/x.json"
        emptyRaw none none sampleStore).success = true ∧
      getBlob (TransformSpotifyData "20240101000000"
          "raw/to_be_processed/x.json" emptyRaw none none sampleStore).store
          (songKey "20240101000000")
        = some ⟨"song_id,name,duration_ms,url,popularity,added_date,album_id,artist_id\n",
            some "text/csv"⟩ ∧
      getBlob (TransformSpotifyData "20240101000000"
          "raw/to_be_processed/x.json" emptyRaw none none sampleStore).store
          (albumKey "20240101000000")
        = some ⟨"album_id,name,release_date,total_tracks,url\n",
            some "text/csv"⟩ ∧
      getBlob (TransformSpotifyData "20240101000000"
          "raw/to_be_processed/x.json" emptyRaw none none sampleStore).store
          (artistKey "20240101000000")
        = some ⟨"artist_id,name,url\n", some "text/csv"⟩ ∧
      getBlob (TransformSpotifyData "20240101000000"
          "raw/to_be_processed/x.json" emptyRaw none none sampleStore).store
          (sourcePathOf "raw/to_be_processed/x.json") = none ∧
      getBlob (TransformSpotifyData "20240101000000"
          "raw/to_be_processed/x.json" emptyRaw none none sampleStore).store
          (targetPathOf "raw/to_be_processed/x.json")
        = some ⟨"rawjson", none⟩) :=
  ⟨⟨rfl, by decide⟩,
    c10_empty_snapshot "20240101000000" "raw/to_be_processed/x.json" emptyRaw
      sampleStore ⟨"rawjson", none⟩ rfl (by decide)⟩
